import Mathlib

/-!
Shallow embedding of the `@rustify/std-types` containers and helper
functions (TypeScript sources: the `Option` class and its helpers module,
the `Result` class and its helpers module), together with theorems
settling the spec claims about them.

Modelling conventions:
* Each two-variant class (hidden boolean discriminant plus payload slots,
  reachable only through the two static factories) is embedded as a Lean
  inductive with the two reachable states as constructors.
* JavaScript values that may be the `null` or `undefined` sentinel are
  embedded as the `Nullable` sum.
* A method that throws is embedded as returning `Except String`, the
  string being the thrown `Error`'s message.
* The option helpers module writes `return Option.none` (without
  invoking the factory) on its short-circuit paths, so those functions
  can return either a genuine `Option` instance or the detached static
  factory function itself; their return type is embedded as `HelperRet`,
  whose `noneFactory` constructor stands for that uninvoked function
  value.
-/

namespace RS

/-- The `Option<T>` class: `_isSome = true` with a payload (`Option.some`),
or `_isSome = false` with no payload (`Option.none`). -/
inductive Option (T : Type) where
  | some (value : T)
  | none

/-- The `Result<T, E>` class: `_isOk = true` with a success payload
(`Result.ok`), or `_isOk = false` with an error payload (`Result.err`). -/
inductive Result (T E : Type) where
  | ok (value : T)
  | err (error : E)

/-- A JavaScript value of type `T | null | undefined`. -/
inductive Nullable (T : Type) where
  | null
  | undefined
  | val (v : T)

namespace Option

/-- `isSome(): boolean` — reads the hidden `_isSome` discriminant. -/
def isSome : Option T → Bool
  | .some _ => true
  | .none => false

/-- `isNone(): boolean` — `return !this._isSome`. -/
def isNone (o : Option T) : Bool :=
  !o.isSome

/-- The `value` getter: throws `"Called value on a None option"` when the
discriminant is false, else returns `_value`. -/
def value : Option T → Except String T
  | .some v => .ok v
  | .none => .error "Called value on a None option"

/-- `map(fn)`: `Option.some(fn(this._value))` when `_isSome`, else a fresh
`Option.none()`. -/
def map (o : Option T) (fn : T → U) : Option U :=
  match o with
  | .some v => .some (fn v)
  | .none => .none

/-- `and(other)`: `other` when `_isSome`, else a fresh `Option.none()`. -/
def and (o : Option T) (other : Option U) : Option U :=
  match o with
  | .some _ => other
  | .none => .none

/-- `andThen(fn)`: `fn(this._value)` when `_isSome`, else `Option.none()`. -/
def andThen (o : Option T) (fn : T → Option U) : Option U :=
  match o with
  | .some v => fn v
  | .none => .none

/-- `or(other)`: `this` when `_isSome`, else `other`. -/
def or (o : Option T) (other : Option T) : Option T :=
  match o with
  | .some _ => o
  | .none => other

/-- `unwrap()`: returns `_value` when `_isSome`, else throws
`"Called unwrap on a None value"`. -/
def unwrap : Option T → Except String T
  | .some v => .ok v
  | .none => .error "Called unwrap on a None value"

/-- `toNullable()`: `this._isSome ? this._value : null`.  Stated over a
payload domain of JavaScript values, where the payload itself may be a
sentinel. -/
def toNullable : Option (Nullable U) → Nullable U
  | .some v => v
  | .none => .null

/-- `toUndefined()`: `this._isSome ? this._value : undefined`. -/
def toUndefined : Option (Nullable U) → Nullable U
  | .some v => v
  | .none => .undefined

/-- JavaScript loose comparison `value != null`: false exactly on the
`null` and `undefined` sentinels (`null == undefined` holds loosely),
true on every other value. -/
def looseNeqNull : Nullable U → Bool
  | .null => false
  | .undefined => false
  | .val _ => true

/-- `static fromNullable(value)`: `value != null ? Option.some(value)
: Option.none()`. -/
def fromNullable (v : Nullable U) : Option (Nullable U) :=
  if looseNeqNull v then Option.some v else Option.none

/-- Return type of the option helpers module's functions: either a genuine
`Option` instance, or — on the paths written `return Option.none` without
parentheses — the detached `Option.none` static factory function itself,
returned uninvoked. -/
inductive HelperRet (T : Type) where
  | val (o : Option T)
  | noneFactory

/-- Loop body of the helpers module's `collect`, carrying the `values`
accumulator: pushes `option.value` when `isSome()`, else executes
`return Option.none` (the uninvoked factory); after the loop returns
`Option.some(values)`. -/
def collectGo (values : List T) : List (Option T) → HelperRet (List T)
  | [] => .val (Option.some values)
  | o :: rest =>
    match o with
    | .some v => collectGo (values ++ [v]) rest
    | .none => .noneFactory

/-- Helpers module `collect(options)`: starts the loop with an empty
`values` array. -/
def collect (options : List (Option T)) : HelperRet (List T) :=
  collectGo [] options

/-- Helpers module `findSome(options)`: returns the first option with
`isSome()` true, itself; after a full scan executes `return Option.none`
(the uninvoked factory). -/
def findSome : List (Option T) → HelperRet T
  | [] => .noneFactory
  | o :: rest =>
    match o with
    | .some _ => .val o
    | .none => findSome rest

/-- Helpers module `wrapSync(fn)`: invokes `fn()` once; a normal return
`value` yields `Option.some(value)`, while the catch-all clause executes
`return Option.none` (the uninvoked factory), discarding the thrown
error. `fn` is embedded as a function whose single invocation either
returns normally (`Except.ok`) or throws (`Except.error`). -/
def wrapSync (fn : Unit → Except E T) : HelperRet T :=
  match fn () with
  | .ok value => .val (Option.some value)
  | .error _ => .noneFactory

end Option

namespace Result

/-- `isOk(): boolean` — reads the hidden `_isOk` discriminant. -/
def isOk : Result T E → Bool
  | .ok _ => true
  | .err _ => false

/-- `isErr(): boolean` — `return !this._isOk`. -/
def isErr (r : Result T E) : Bool :=
  !r.isOk

/-- `map(fn)`: `Result.ok(fn(this._value))` when `_isOk`, else the same
instance (`this`), its error untouched. -/
def map (r : Result T E) (fn : T → U) : Result U E :=
  match r with
  | .ok v => .ok (fn v)
  | .err e => .err e

/-- `mapErr(fn)`: `this` when `_isOk`, else `Result.err(fn(this._error))`. -/
def mapErr (r : Result T E) (fn : E → F) : Result T F :=
  match r with
  | .ok v => .ok v
  | .err e => .err (fn e)

/-- `and(other)`: `other` when `_isOk`, else the same instance (`this`). -/
def and (r : Result T E) (other : Result U E) : Result U E :=
  match r with
  | .ok _ => other
  | .err e => .err e

/-- `andThen(fn)`: `fn(this._value)` when `_isOk`, else the same instance.
(The TypeScript error-type widening `E | F` is a type-level coercion with
no run-time content; the embedding keeps one error type.) -/
def andThen (r : Result T E) (fn : T → Result U E) : Result U E :=
  match r with
  | .ok v => fn v
  | .err e => .err e

/-- `or(other)`: `this` when `_isOk`, else `other`. -/
def or (r : Result T E) (other : Result T E) : Result T E :=
  match r with
  | .ok _ => r
  | .err _ => other

/-- `unwrap()`: returns `_value` when `_isOk`, else throws
`` `Called unwrap on an Err value: ${this._error}` ``.  `strOf` embeds the
template literal's implicit conversion of the error to its default string
form. -/
def unwrap (strOf : E → String) : Result T E → Except String T
  | .ok v => .ok v
  | .err e => .error ("Called unwrap on an Err value: " ++ strOf e)

/-- Loop body of the result helpers module's `collect`, carrying the
`values` accumulator: `return result` itself when `isErr()`, else push
`result.value`; after the loop returns `Result.ok(values)`. -/
def collectGo (values : List T) : List (Result T E) → Result (List T) E
  | [] => .ok values
  | r :: rest =>
    match r with
    | .err e => .err e
    | .ok v => collectGo (values ++ [v]) rest

/-- Result helpers module `collect(results)`: starts the loop with an
empty `values` array. -/
def collect (results : List (Result T E)) : Result (List T) E :=
  collectGo [] results

/-- Result helpers module `wrapSync(fn)`: invokes `fn()`; a normal return
yields `Result.ok`, a thrown error is captured as `Result.err(error)`. -/
def wrapSync (fn : Unit → Except E T) : Result T E :=
  match fn () with
  | .ok v => .ok v
  | .error e => .err e

end Result

end RS

/-! ## Helper lemmas about the collect loops -/

theorem RS.Option.collectGo_all_some {T : Type} (vs : List T) (acc : List T) :
    RS.Option.collectGo acc (vs.map RS.Option.some)
      = RS.Option.HelperRet.val (RS.Option.some (acc ++ vs)) := by
  induction vs generalizing acc with
  | nil => simp [RS.Option.collectGo]
  | cons v vs ih => simp [RS.Option.collectGo, ih]

theorem RS.Option.collectGo_short {T : Type} (vs : List T) (acc : List T)
    (rest : List (RS.Option T)) :
    RS.Option.collectGo acc (vs.map RS.Option.some ++ RS.Option.none :: rest)
      = RS.Option.HelperRet.noneFactory := by
  induction vs generalizing acc with
  | nil => simp [RS.Option.collectGo]
  | cons v vs ih => simp [RS.Option.collectGo, ih]

theorem RS.Result.collectGo_all_ok {T E : Type} (vs : List T) (acc : List T) :
    RS.Result.collectGo acc (vs.map RS.Result.ok)
      = (RS.Result.ok (acc ++ vs) : RS.Result (List T) E) := by
  induction vs generalizing acc with
  | nil => simp [RS.Result.collectGo]
  | cons v vs ih => simp [RS.Result.collectGo, ih]

theorem RS.Result.collectGo_first_err {T E : Type} (vs : List T) (acc : List T)
    (e : E) (rest : List (RS.Result T E)) :
    RS.Result.collectGo acc (vs.map RS.Result.ok ++ RS.Result.err e :: rest)
      = RS.Result.err e := by
  induction vs generalizing acc with
  | nil => simp [RS.Result.collectGo]
  | cons v vs ih => simp [RS.Result.collectGo, ih]

theorem RS.Option.findSome_all_none {T : Type} (n : Nat) :
    RS.Option.findSome (List.replicate n (RS.Option.none : RS.Option T))
      = RS.Option.HelperRet.noneFactory := by
  induction n with
  | zero => simp [RS.Option.findSome]
  | succ n ih => simp [List.replicate_succ, RS.Option.findSome, ih]

theorem RS.Option.findSome_first_some {T : Type} (n : Nat) (v : T)
    (rest : List (RS.Option T)) :
    RS.Option.findSome
        (List.replicate n RS.Option.none ++ RS.Option.some v :: rest)
      = RS.Option.HelperRet.val (RS.Option.some v) := by
  induction n with
  | zero => simp [RS.Option.findSome]
  | succ n ih => simp [List.replicate_succ, RS.Option.findSome, ih]

/-! ## Claim theorems -/

/-- Claim C1 (code bug): at the first Absent element the option helpers
module's `collect` executes `return Option.none` without invoking the
factory, so it returns the detached static factory function itself —
not an Absent `Option` instance as the spec and the package's own tests
require.  The all-Present and empty cases do return Present of the
unwrapped values in input order; the short-circuit fires at the first
Absent whatever follows it. -/
theorem C1_option_collect_returns_uninvoked_factory :
    RS.Option.collect [RS.Option.some (1 : Int), RS.Option.none, RS.Option.some 3]
        = RS.Option.HelperRet.noneFactory
  ∧ (∀ o : RS.Option (List Int),
      RS.Option.collect [RS.Option.some (1 : Int), RS.Option.none, RS.Option.some 3]
        ≠ RS.Option.HelperRet.val o)
  ∧ (∀ (T : Type) (vs : List T) (rest : List (RS.Option T)),
      RS.Option.collect (vs.map RS.Option.some ++ RS.Option.none :: rest)
        = RS.Option.HelperRet.noneFactory)
  ∧ (∀ (T : Type) (vs : List T),
      RS.Option.collect (vs.map RS.Option.some)
        = RS.Option.HelperRet.val (RS.Option.some vs))
  ∧ RS.Option.collect ([] : List (RS.Option Int))
      = RS.Option.HelperRet.val (RS.Option.some []) := by
  refine ⟨rfl, fun o h => by simp [RS.Option.collect, RS.Option.collectGo] at h,
    fun T vs rest => RS.Option.collectGo_short vs [] rest,
    fun T vs => by simpa using RS.Option.collectGo_all_some vs [], rfl⟩

/-- Claim C2 (code bug): the option helpers module's `wrapSync` maps a
normal return `v` to `Present(v)`, but its catch branch executes
`return Option.none` without invoking the factory, so a throwing `fn`
yields the detached static factory function itself, not an Absent
`Option` instance as the spec and the package's own tests require. -/
theorem C2_option_wrapSync_returns_uninvoked_factory :
    (∀ (T E : Type) (v : T),
      RS.Option.wrapSync (fun _ => (Except.ok v : Except E T))
        = RS.Option.HelperRet.val (RS.Option.some v))
  ∧ (∀ (T E : Type) (e : E),
      RS.Option.wrapSync (fun _ => (Except.error e : Except E T))
        = RS.Option.HelperRet.noneFactory)
  ∧ (∀ o : RS.Option Int,
      RS.Option.wrapSync (fun _ => (Except.error "boom" : Except String Int))
        ≠ RS.Option.HelperRet.val o) := by
  refine ⟨fun T E v => rfl, fun T E e => rfl,
    fun o h => by simp [RS.Option.wrapSync] at h⟩

/-- Claim C3 (code bug): `findSome` does return the first Present element
in input order, but when the list holds no Present element it executes
`return Option.none` without invoking the factory, returning the detached
static factory function itself rather than an Absent `Option` instance as
the spec and the package's own tests require. -/
theorem C3_findSome_returns_uninvoked_factory_when_no_some :
    (∀ (T : Type) (n : Nat) (v : T) (rest : List (RS.Option T)),
      RS.Option.findSome (List.replicate n RS.Option.none ++ RS.Option.some v :: rest)
        = RS.Option.HelperRet.val (RS.Option.some v))
  ∧ (∀ (T : Type) (n : Nat),
      RS.Option.findSome (List.replicate n (RS.Option.none : RS.Option T))
        = RS.Option.HelperRet.noneFactory)
  ∧ (∀ o : RS.Option Int,
      RS.Option.findSome [RS.Option.none, RS.Option.none] ≠ RS.Option.HelperRet.val o) := by
  refine ⟨fun T n v rest => RS.Option.findSome_first_some n v rest,
    fun T n => RS.Option.findSome_all_none n,
    fun o h => by simp [RS.Option.findSome] at h⟩

/-- Claim C4: the result helpers module's `collect` returns the first
Failure encountered with its error unchanged, whatever follows it; when
every element is a Success it returns Success of the unwrapped values in
input order; the empty list yields Success of the empty list. -/
theorem C4_result_collect_first_failure_wins :
    (∀ (T E : Type) (vs : List T) (e : E) (rest : List (RS.Result T E)),
      RS.Result.collect (vs.map RS.Result.ok ++ RS.Result.err e :: rest)
        = RS.Result.err e)
  ∧ (∀ (T E : Type) (vs : List T),
      RS.Result.collect (vs.map RS.Result.ok)
        = (RS.Result.ok vs : RS.Result (List T) E))
  ∧ (∀ (T E : Type),
      RS.Result.collect ([] : List (RS.Result T E)) = RS.Result.ok []) := by
  refine ⟨fun T E vs e rest => RS.Result.collectGo_first_err vs [] e rest,
    fun T E vs => by simpa using RS.Result.collectGo_all_ok (E := E) vs [],
    fun T E => rfl⟩

/-- Claim C5: `unwrap` on an Absent option throws exactly
`"Called unwrap on a None value"`; on a Failure result it throws exactly
`"Called unwrap on an Err value: "` followed by the error's default
string form; on the Present/Success variant it returns the held value and
throws nothing. -/
theorem C5_unwrap_failure_messages :
    (∀ (T : Type),
      (RS.Option.none : RS.Option T).unwrap
        = Except.error "Called unwrap on a None value")
  ∧ (∀ (T E : Type) (strOf : E → String) (e : E),
      (RS.Result.err e : RS.Result T E).unwrap strOf
        = Except.error ("Called unwrap on an Err value: " ++ strOf e))
  ∧ (RS.Result.err "error" : RS.Result Int String).unwrap id
      = Except.error "Called unwrap on an Err value: error"
  ∧ (∀ (T : Type) (v : T), (RS.Option.some v).unwrap = Except.ok v)
  ∧ (∀ (T E : Type) (strOf : E → String) (v : T),
      (RS.Result.ok v : RS.Result T E).unwrap strOf = Except.ok v) := by
  exact ⟨fun T => rfl, fun T E strOf e => rfl, rfl, fun T v => rfl,
    fun T E strOf v => rfl⟩

/-- Claim C6: `fromNullable` maps both the `null` sentinel and the
`undefined` sentinel to Absent, and every other value — including `0`,
`false` and the empty string — to Present of that value. -/
theorem C6_fromNullable_sentinels :
    (∀ (U : Type),
      RS.Option.fromNullable (RS.Nullable.null : RS.Nullable U) = RS.Option.none)
  ∧ (∀ (U : Type),
      RS.Option.fromNullable (RS.Nullable.undefined : RS.Nullable U) = RS.Option.none)
  ∧ (∀ (U : Type) (u : U),
      RS.Option.fromNullable (RS.Nullable.val u) = RS.Option.some (RS.Nullable.val u))
  ∧ RS.Option.fromNullable (RS.Nullable.val (0 : Int))
      = RS.Option.some (RS.Nullable.val 0)
  ∧ RS.Option.fromNullable (RS.Nullable.val false)
      = RS.Option.some (RS.Nullable.val false)
  ∧ RS.Option.fromNullable (RS.Nullable.val "")
      = RS.Option.some (RS.Nullable.val "") := by
  exact ⟨fun U => rfl, fun U => rfl, fun U u => rfl, rfl, rfl, rfl⟩

/-- Claim C7: for both containers, `map` with the identity function
returns a container with the same active variant and the same payload
(error payload included on the Failure side). -/
theorem C7_map_identity :
    (∀ (T : Type) (x : RS.Option T), x.map (fun v => v) = x)
  ∧ (∀ (T E : Type) (x : RS.Result T E), x.map (fun v => v) = x) := by
  constructor
  · intro T x; cases x <;> rfl
  · intro T E x; cases x <;> rfl

/-- Claim C8: `Absent.and(other)` is Absent and `Failure(e).and(other)` is
`Failure(e)` (original error preserved) for every `other`; dually,
`Present(v).or(other)` is `Present(v)` and `Success(v).or(other)` is
`Success(v)` for every `other`. -/
theorem C8_short_circuit_laws :
    (∀ (T U : Type) (other : RS.Option U),
      (RS.Option.none : RS.Option T).and other = RS.Option.none)
  ∧ (∀ (T U E : Type) (e : E) (other : RS.Result U E),
      (RS.Result.err e : RS.Result T E).and other = RS.Result.err e)
  ∧ (∀ (T : Type) (v : T) (other : RS.Option T),
      (RS.Option.some v).or other = RS.Option.some v)
  ∧ (∀ (T E : Type) (v : T) (other : RS.Result T E),
      (RS.Result.ok v : RS.Result T E).or other = RS.Result.ok v) := by
  exact ⟨fun T U other => rfl, fun T U E e other => rfl,
    fun T v other => rfl, fun T E v other => rfl⟩

/-- Claim C9: bind associativity for both containers:
`x.andThen(f).andThen(g)` equals `x.andThen(v => f(v).andThen(g))`. -/
theorem C9_bind_associativity :
    (∀ (T U V : Type) (x : RS.Option T)
        (f : T → RS.Option U) (g : U → RS.Option V),
      (x.andThen f).andThen g = x.andThen (fun v => (f v).andThen g))
  ∧ (∀ (T U V E : Type) (x : RS.Result T E)
        (f : T → RS.Result U E) (g : U → RS.Result V E),
      (x.andThen f).andThen g = x.andThen (fun v => (f v).andThen g)) := by
  constructor
  · intro T U V x f g; cases x <;> rfl
  · intro T U V E x f g; cases x <;> rfl

/-- Claim C10: the Present/Absent state lives in the hidden discriminant,
not the payload: `some(v)` has `isSome()` true and `unwrap()` returning
`v` even when `v` is the `null` or `undefined` sentinel; the round trip
`fromNullable(toNullable(x))` — and likewise via `toUndefined` — returns
`x` unchanged for Absent and for Present of a non-sentinel value, while
`Present(null)` and `Present(undefined)` collapse to Absent. -/
theorem C10_discriminant_and_roundtrip :
    (∀ (U : Type) (v : RS.Nullable U),
      (RS.Option.some v).isSome = true ∧ (RS.Option.some v).unwrap = Except.ok v)
  ∧ (∀ (U : Type),
      RS.Option.fromNullable
          (RS.Option.toNullable (RS.Option.none : RS.Option (RS.Nullable U)))
        = RS.Option.none
    ∧ RS.Option.fromNullable
          (RS.Option.toUndefined (RS.Option.none : RS.Option (RS.Nullable U)))
        = RS.Option.none)
  ∧ (∀ (U : Type) (u : U),
      RS.Option.fromNullable
          (RS.Option.toNullable (RS.Option.some (RS.Nullable.val u)))
        = RS.Option.some (RS.Nullable.val u)
    ∧ RS.Option.fromNullable
          (RS.Option.toUndefined (RS.Option.some (RS.Nullable.val u)))
        = RS.Option.some (RS.Nullable.val u))
  ∧ (∀ (U : Type),
      RS.Option.fromNullable
          (RS.Option.toNullable (RS.Option.some (RS.Nullable.null : RS.Nullable U)))
        = RS.Option.none
    ∧ RS.Option.fromNullable
          (RS.Option.toUndefined (RS.Option.some (RS.Nullable.null : RS.Nullable U)))
        = RS.Option.none
    ∧ RS.Option.fromNullable
          (RS.Option.toNullable (RS.Option.some (RS.Nullable.undefined : RS.Nullable U)))
        = RS.Option.none
    ∧ RS.Option.fromNullable
          (RS.Option.toUndefined (RS.Option.some (RS.Nullable.undefined : RS.Nullable U)))
        = RS.Option.none) := by
  exact ⟨fun U v => ⟨rfl, rfl⟩, fun U => ⟨rfl, rfl⟩, fun U u => ⟨rfl, rfl⟩,
    fun U => ⟨rfl, rfl, rfl, rfl⟩⟩
